import Mathlib

/-!
Verification development for the AI recap / topic-suggestion backend
(`zerver/lib/ai.py`, `zerver/views/topic_improver.py`,
`zerver/views/message_recap.py`).

The Python code is shallowly embedded: pure string manipulation becomes
Lean functions over `String` (a wrapper around `List Char`, matching
Python's code-point indexing), the message store and the outbound LLM
HTTP call become explicit function parameters (the HTTP call returns
`Except Unit String`: `error` models a raised exception or non-2xx
status, `ok c` models a response whose extracted content is `c`), and
code that can raise an uncaught exception returns `Option`/`Except`.
The `bleach.clean` sanitizer is an external library and is kept as an
abstract `String → String` parameter.

Python string primitives are modelled over the ASCII/Latin-1 fragment
(whitespace and word-character classes list the code points relevant
there; all concrete inputs below are ASCII).
-/

/-- Model of Python `str.isspace` characters (ASCII/Latin-1 fragment),
used by `str.strip()`. -/
def pyIsSpace (c : Char) : Bool :=
  c == ' ' || c == '\t' || c == '\n' || c == '\r' || c == '\x0b' || c == '\x0c' ||
  c == '\x1c' || c == '\x1d' || c == '\x1e' || c == '\x1f' || c == '\x85' || c == '\xa0'

/-- Python `str.strip()` on a character list. -/
def pyStripL (l : List Char) : List Char :=
  ((l.dropWhile pyIsSpace).reverse.dropWhile pyIsSpace).reverse

/-- Python `str.strip()`. -/
def pyStrip (s : String) : String := String.mk (pyStripL s.data)

/-- Python slicing `s[:n]` (by code points). -/
def pyTake (n : Nat) (s : String) : String := String.mk (s.data.take n)

/-- Python `s.split("\n", 1)[0]`: the text before the first newline
(the whole string when there is none).  Always defined. -/
def pyFirstLine (s : String) : String :=
  String.mk (s.data.takeWhile (fun c => c != '\n'))

/-- Python `s.split("\n", 1)[1]`: the text after the first newline.
`none` models the `IndexError` raised when the string has no newline. -/
def pyAfterFirstNL (s : String) : Option String :=
  if s.data.contains '\n' then
    some (String.mk ((s.data.dropWhile (fun c => c != '\n')).drop 1))
  else none

/-- Line-boundary characters of Python `str.splitlines` (ASCII/Latin-1
fragment plus the two Unicode separators). -/
def pyIsLineBoundary (c : Char) : Bool :=
  c == '\n' || c == '\r' || c == '\x0b' || c == '\x0c' || c == '\x1c' ||
  c == '\x1d' || c == '\x1e' || c == '\x85' || c == '\u2028' || c == '\u2029'

/-- Python `s.splitlines()[0]`: `none` models the `IndexError` on the
empty string, otherwise the prefix before the first line boundary. -/
def pySplitlinesFirst (s : String) : Option String :=
  if s.data.isEmpty then none
  else some (String.mk (s.data.takeWhile (fun c => !(pyIsLineBoundary c))))

/-- Python `s.replace("\n", " ")` (a one-character to one-character map). -/
def pyReplaceNL (s : String) : String :=
  String.mk (s.data.map (fun c => if c == '\n' then ' ' else c))

/-- Python `s.lower()` (ASCII model). -/
def pyLower (s : String) : String := String.mk (s.data.map Char.toLower)

/-- Python `s[-n:]`. -/
def lastN (n : Nat) (l : List α) : List α := l.drop (l.length - n)

/-- Boolean list-prefix test. -/
def isPrefixOfL : List Char → List Char → Bool
  | [], _ => true
  | _ :: _, [] => false
  | a :: as, b :: bs => a == b && isPrefixOfL as bs

/-- Boolean list-infix test, modelling Python's `w in t` substring test. -/
def isInfixOfL (w : List Char) : List Char → Bool
  | [] => isPrefixOfL w []
  | t :: ts => isPrefixOfL w (t :: ts) || isInfixOfL w ts

/-- Value of a nonempty all-digit character list; `none` otherwise. -/
def digitsVal (l : List Char) : Option Nat :=
  if l.isEmpty then none
  else l.foldl (fun acc c =>
    match acc with
    | none => none
    | some n => if c.isDigit then some (n * 10 + (c.toNat - 48)) else none) (some 0)

/-- Model of Python `int(s)` on strings: strips whitespace, allows one
sign, then requires a nonempty digit run.  `none` models `ValueError`. -/
def pyInt (s : String) : Option Int :=
  match pyStripL s.data with
  | '+' :: rest => (digitsVal rest).map (fun n => (n : Int))
  | '-' :: rest => (digitsVal rest).map (fun n => -(n : Int))
  | l => (digitsVal l).map (fun n => (n : Int))

/-- Python `sep.join(parts)`. -/
def pyJoin (sep : String) : List String → String
  | [] => ""
  | p :: ps => ps.foldl (fun acc q => acc ++ sep ++ q) p

/-- Maximal runs of characters satisfying `p` (accumulator-based;
`cur` holds the current run reversed). -/
def runsByAux (p : Char → Bool) (cur : List Char) : List Char → List (List Char)
  | [] => if cur.isEmpty then [] else [cur.reverse]
  | c :: cs =>
    if p c then runsByAux p (c :: cur) cs
    else if cur.isEmpty then runsByAux p cur cs
    else cur.reverse :: runsByAux p [] cs

/-- Model of `re.findall` for a pattern matching runs of `p`-characters
of length at least 3: the maximal `p`-runs of length at least 3, in order. -/
def findTokensMin3 (p : Char → Bool) (s : String) : List (List Char) :=
  (runsByAux p [] s.data).filter (fun r => decide (3 ≤ r.length))

/-- Python regex `\w` (ASCII model): letters, digits, underscore. -/
def isWordChar (c : Char) : Bool := c.isAlphanum || c == '_'

/-- The tokens `re.findall(r"\w{3,}", current_title.lower())` of
`topic_improver.py` line 96. -/
def titleTokens (title : String) : List (List Char) :=
  findTokensMin3 isWordChar (pyLower title)

/-- Whether text `t` contains some token (case-insensitive): models
`any(w in t.lower() for w in title_words)`. -/
def matchesTitle (tokens : List (List Char)) (t : String) : Bool :=
  tokens.any (fun w => isInfixOfL w (pyLower t).data)

/-- `sum(1 for t in texts if any(w in t.lower() for w in title_words))`. -/
def titleMatchCount (tokens : List (List Char)) (texts : List String) : Nat :=
  (texts.filter (matchesTitle tokens)).length

/-- `sum(len(t) for t in texts)`. -/
def sumLens (l : List String) : Nat := (l.map String.length).sum

/-- One escaped character of `django.utils.html.escape`. -/
def escapeChar (c : Char) : List Char :=
  if c == '&' then "&amp;".data
  else if c == '<' then "&lt;".data
  else if c == '>' then "&gt;".data
  else if c == '"' then "&quot;".data
  else if c == '\x27' then "&#x27;".data
  else [c]

/-- `django.utils.html.escape` (character-wise translation). -/
def djangoEscape (s : String) : String :=
  String.mk ((s.data.map escapeChar).flatten)

/-- Index of the last occurrence of `pat` in `l`, if any. -/
def lastMatchPos (pat l : List Char) : Option Nat :=
  ((List.range (l.length + 1)).filter (fun i => isPrefixOfL pat (l.drop i))).getLast?

/-- Python `s.rsplit(pat, 1)[0]`: the text before the last occurrence of
`pat`, or the whole string when `pat` does not occur. -/
def pyRsplitBefore (pat : String) (s : String) : String :=
  match lastMatchPos pat.data s.data with
  | none => s
  | some i => String.mk (s.data.take i)

/-! ## Model of `zerver/lib/ai.py` -/

/-- The process configuration read via `getattr(settings, ...)`:
`LLM_API_KEY` (absent modelled as `none`) and `LLM_PROVIDER` (its
default "openai" already applied).  The model names only select which
remote model answers and are irrelevant to the embedded control flow. -/
structure LLMConfig where
  api_key : Option String
  provider : String
deriving DecidableEq

/-- Python truthiness of an optional string (`if not api_key`,
`if current_title`). -/
def truthyOpt (v : Option String) : Bool :=
  match v with
  | none => false
  | some s => s != ""

/-- The outbound chat-completion call: given the system and user prompts
it either raises (`error`, covering network errors, `raise_for_status`
and an unparsable body) or yields the extracted first-choice content
(`data.get("choices",[{}])[0].get("message",{}).get("content","")`). -/
abbrev LLMOracle := String → String → Except Unit String

/-- Python `f"{x}"` for an optional string (`None` prints as "None"). -/
def pyFormatOpt (v : Option String) : String :=
  match v with
  | none => "None"
  | some s => s

/-- `ai.py` lines 91-96.  `s.split("\n", 1)[1]` raises `IndexError`
when the stripped string starts with a fence but has no newline; that
exception is modelled by `none`. -/
def strip_code_fence (s : String) : Option String :=
  if isPrefixOfL "```".data (pyStrip s).data then
    match pyAfterFirstNL (pyStrip s) with
    | none => none
    | some rest => some (pyStrip (pyRsplitBefore "```" rest))
  else some (pyStrip s)

/-- The recap system prompt, `ai.py` lines 35-42. -/
def recap_prompt_system : String :=
  "You are a concise assistant.\nReturn ONLY valid HTML.\nDO NOT use Markdown.\nDO NOT wrap output in ``` or ```html.\nDO NOT include message IDs like MSG 12.\nUse <p>, <ul>, <li>, <strong> only.\n"

/-- `ai.py` lines 24-27: each text paired with its id by `zip`, texts
truncated to 3000 characters, list capped at 200 entries. -/
def recap_labelled (messages : List String) (message_ids : List Int) : List String :=
  ((message_ids.zip messages).map (fun p => pyTake 3000 p.2)).take 200

/-- The fallback recap built at `ai.py` lines 31-33 and 75-76: the first
10 labelled texts joined, truncated to 4000 characters, HTML-escaped,
wrapped in a labelled `<pre>` block. -/
def recap_fallback (labelled : List String) : String :=
  "<p><strong>Recap (fallback):</strong></p><pre>" ++
    djangoEscape (pyTake 4000 (pyJoin "\n\n---\n\n" (labelled.take 10))) ++ "</pre>"

/-- The recap user prompt, `ai.py` line 43. -/
def recap_prompt_user (labelled : List String) : String :=
  "Messages:\n\n" ++ pyJoin "\n\n---\n\n" labelled

/-- `ai.py` lines 29-99 after `labelled` is built (everything from the
API-key check onward depends only on `labelled` and the configuration).
`sanitize` stands for `bleach.clean` with the module's allow-lists.
Note the source computes `clean = bleach.clean(content)` from the
UNstripped content, then calls `strip_code_fence(content)` discarding
its result except for its possible `IndexError` (modelled by `none`),
and wraps `clean`. -/
def recap_from_labelled (cfg : LLMConfig) (http : LLMOracle)
    (sanitize : String → String) (labelled : List String) : Option String :=
  if truthyOpt cfg.api_key = false then some (recap_fallback labelled)
  else if cfg.provider != "openai" then some (recap_fallback labelled)
  else
    match http recap_prompt_system (recap_prompt_user labelled) with
    | .error _ => some (recap_fallback labelled)
    | .ok content =>
      if content = "" then some "<p>(empty recap)</p>"
      else
        match strip_code_fence content with
        | none => none
        | some _ => some ("<div class=\x27ai-recap\x27>" ++ sanitize content ++ "</div>")

/-- `generate_message_recap`, `ai.py` lines 10-99.  `none` models an
uncaught exception escaping the function. -/
def generate_message_recap (cfg : LLMConfig) (http : LLMOracle)
    (sanitize : String → String) (messages : List String) (message_ids : List Int) :
    Option String :=
  if messages.isEmpty then some "<p>(no messages)</p>"
  else recap_from_labelled cfg http sanitize (recap_labelled messages message_ids)

/-- The topic system prompt, `ai.py` lines 121-128. -/
def topic_prompt_system : String :=
  "You generate short Zulip topic titles.\nReturn ONLY the title text (no quotes, no markdown).\nKeep it <= 60 characters.\nDo NOT reuse boilerplate prefixes from the current topic (e.g., \x27Changing focus to\x27, \x27Topic shift:\x27, \x27New topic:\x27, \x27Discussion:\x27).\nWrite the title as a neutral noun phrase describing the subject.\nIf the current topic is still accurate, return an empty string."

/-- `user_parts`, `ai.py` lines 130-141.  Note line 134 splices the RAW
`messages` (untruncated, uncapped) into the parts; the truncated
`labelled` list is appended separately at line 141. -/
def topic_user_parts (messages labelled : List String) (current_title : Option String) :
    List String :=
  ["Current topic: " ++ pyFormatOpt current_title, "", "Recent messages:"]
    ++ messages
    ++ ["", "Suggest a better topic title if the discussion focus has changed."]
    ++ (if truthyOpt current_title then ["Current title: " ++ pyFormatOpt current_title ++ "\n"] else [])
    ++ ["Recent messages:\n", pyJoin "\n\n---\n\n" labelled]

/-- `labelled`, `ai.py` lines 116-120: last 30 messages, each truncated
to 800 characters. -/
def topic_labelled (messages : List String) : List String :=
  (lastN 30 messages).map (pyTake 800)

/-- `prompt_user = "\n".join(user_parts)`, `ai.py` line 142. -/
def topic_prompt_user (messages : List String) (current_title : Option String) : String :=
  pyJoin "\n" (topic_user_parts messages (topic_labelled messages) current_title)

/-- `current_title or ""`, `ai.py` lines 147 and 175. -/
def currentTitleOr (ct : Option String) : String := ct.getD ""

/-- The heuristic candidate `x.split("\n", 1)[0].strip()[:60]` used by
both fallback paths (`ai.py` lines 146 and 174). -/
def topic_fallback_candidate (x : String) : String :=
  pyTake 60 (pyStrip (pyFirstLine x))

/-- `candidate or (current_title or "")`, `ai.py` lines 146-147. -/
def candidate_or_title (x : String) (ct : Option String) : String :=
  if topic_fallback_candidate x = "" then currentTitleOr ct else topic_fallback_candidate x

/-- The `except` fallback of `ai.py` lines 172-175 (also reached when
the provider is unsupported, the HTTP call raises, or the returned
content is blank so that `splitlines()[0]` raises `IndexError`). -/
def topic_exc_fallback (messages : List String) (ct : Option String) : String :=
  if messages.isEmpty then currentTitleOr ct
  else candidate_or_title (messages.getLastD "") ct

/-- `suggest_topic_title`, `ai.py` lines 102-175.  Total: every
exception inside the `try` block lands in the `except` fallback. -/
def suggest_topic_title (cfg : LLMConfig) (http : LLMOracle)
    (messages : List String) (current_title : Option String) : String :=
  if messages.isEmpty then ""
  else
    if truthyOpt cfg.api_key = false then
      candidate_or_title ((topic_labelled messages).getLastD "") current_title
    else if cfg.provider != "openai" then topic_exc_fallback messages current_title
    else
      match http topic_prompt_system (topic_prompt_user messages current_title) with
      | .error _ => topic_exc_fallback messages current_title
      | .ok content =>
        match pySplitlinesFirst (pyStrip content) with
        | none => topic_exc_fallback messages current_title
        | some line0 => pyStrip (pyReplaceNL (pyTake 60 line0))

/-! ## Model of `zerver/views/topic_improver.py` -/

deriving instance DecidableEq for Except

/-- The error response raised via `JsonableError(msg)`. -/
structure JErr where
  msg : String
deriving DecidableEq

/-- The JSON success payload of the topic-suggestion endpoint. -/
structure TopicResponse where
  suggested_title : String
  anchor_id : Int
deriving DecidableEq

/-- The message store as seen through `Message.objects`: `store i` is
the stored `content or ""` of message `i`, or `none` when no message
with id `i` exists. -/
abbrev Store := Int → Option String

/-- The raw POST fields the handler reads: `current_title` (defaulted
to ""), the raw `message_id` string if supplied, and the raw
`message_ids` string list. -/
structure TopicRequest where
  current_title : String
  message_id : Option String
  message_ids : List String
deriving DecidableEq

/-- `_parse_int`, `topic_improver.py` lines 22-28: `None` or the empty
string parse to `None`; otherwise a failed `int()` raises. -/
def parse_int (v : Option String) (field : String) : Except JErr (Option Int) :=
  match v with
  | none => .ok none
  | some s =>
    if s = "" then .ok none
    else
      match pyInt s with
      | some n => .ok (some n)
      | none => .error ⟨field ++ " is not an integer"⟩

/-- `_parse_int_list_from_post`, `topic_improver.py` lines 31-44: empty
items are skipped; a non-integer item raises. -/
def parse_int_list (key : String) : List String → Except JErr (List Int)
  | [] => .ok []
  | s :: rest =>
    if s = "" then parse_int_list key rest
    else
      match pyInt s with
      | none => .error ⟨key ++ " contains non-integer value"⟩
      | some n =>
        match parse_int_list key rest with
        | .error e => .error e
        | .ok ns => .ok (n :: ns)

/-- `anchor_id`, `topic_improver.py` line 64: the explicit `message_id`
if given, else the last entry of `message_ids`. -/
def anchorOf (mid : Option Int) (mids : List Int) : Int :=
  match mid with
  | some i => i
  | none => mids.getLastD 0

/-- One entry of the id-to-text map of `topic_improver.py` lines 72-75:
present and nonempty after stripping, else dropped. -/
def fetchStripped (store : Store) (mid : Int) : Option String :=
  match store mid with
  | none => none
  | some c => if pyStrip c = "" then none else some (pyStrip c)

/-- Validation, anchor and text resolution, `topic_improver.py`
lines 60-82. -/
def resolveTexts (store : Store) (mid : Option Int) (mids : List Int) :
    Except JErr (Int × List String) :=
  if mid.isNone && mids.isEmpty then .error ⟨"message_id or message_ids is required"⟩
  else if mids.isEmpty = false then
    if 50 < mids.length then .error ⟨"Too many messages requested (max 50)"⟩
    else .ok (anchorOf mid mids, mids.filterMap (fetchStripped store))
  else
    match store (anchorOf mid mids) with
    | none => .error ⟨"anchor message not found"⟩
    | some c => .ok (anchorOf mid mids, if pyStrip c = "" then [] else [pyStrip c])

/-- The heuristic gate and orchestration, `topic_improver.py`
lines 84-115 (after parsing): gates in source order, then the LLM call
whose result is trimmed (`(suggested or "").strip()`).  The float
comparisons `avg_len < 20` and `matches / len(texts) > 0.6` are exact
at these magnitudes and are written as the equivalent integer
comparisons. -/
def suggest_topic_title_core (store : Store) (cfg : LLMConfig) (http : LLMOracle)
    (current_title : String) (mid : Option Int) (mids : List Int) :
    Except JErr TopicResponse :=
  match resolveTexts store mid mids with
  | .error e => .error e
  | .ok (anchor, texts) =>
    if texts.length < 2 then .ok ⟨"", anchor⟩
    else if sumLens texts < 20 * texts.length then .ok ⟨"", anchor⟩
    else if titleTokens current_title ≠ [] ∧
        3 * texts.length < 5 * titleMatchCount (titleTokens current_title) texts then
      .ok ⟨"", anchor⟩
    else .ok ⟨pyStrip (suggest_topic_title cfg http texts (some current_title)), anchor⟩

/-- `suggest_topic_title_backend`, `topic_improver.py` lines 47-115:
parse the two id fields, then run the resolution, gate and LLM logic. -/
def suggest_topic_title_backend (store : Store) (cfg : LLMConfig) (http : LLMOracle)
    (req : TopicRequest) : Except JErr TopicResponse :=
  match parse_int req.message_id "message_id" with
  | .error e => .error e
  | .ok mid =>
    match parse_int_list "message_ids" req.message_ids with
    | .error e => .error e
    | .ok mids => suggest_topic_title_core store cfg http req.current_title mid mids

/-! ## Model of `zerver/views/message_recap.py` -/

/-- One entry of `message_refs`, `message_recap.py` lines 54-61. -/
structure MessageRef where
  message_id : Int
  anchor : String
  snippet : String
deriving DecidableEq

/-- The JSON success payload of the recap endpoint. -/
structure RecapResponse where
  recap_html : String
  message_refs : List MessageRef
deriving DecidableEq

/-- `[int(mid) for mid in raw_ids]`, `message_recap.py` lines 31-34:
any non-integer item (the empty string included) raises `ValueError`,
surfaced as one fixed error. -/
def parse_int_all : List String → Except JErr (List Int)
  | [] => .ok []
  | s :: rest =>
    match pyInt s with
    | none => .error ⟨"message_ids must be integers"⟩
    | some n =>
      match parse_int_all rest with
      | .error e => .error e
      | .ok ns => .ok (n :: ns)

/-- `ordered_msgs`, `message_recap.py` lines 39-43: the requested ids
paired with their stored `content or ""`, in caller order, ids with no
stored message dropped. -/
def orderedMsgs (store : Store) (message_ids : List Int) : List (Int × String) :=
  message_ids.filterMap (fun mid => (store mid).map (fun c => (mid, c)))

/-- `message_recap`, `message_recap.py` lines 14-67, starting from the
extracted raw id strings (form field or JSON body).  Messages are
fetched and kept in caller order, missing ids dropped; an exception
from `generate_message_recap` (modelled by `none`) becomes the
"Recap generation failed" error. -/
def message_recap (store : Store) (cfg : LLMConfig) (http : LLMOracle)
    (sanitize : String → String) (raw_ids : List String) : Except JErr RecapResponse :=
  if raw_ids.isEmpty then .error ⟨"message_ids is required"⟩
  else
    match parse_int_all raw_ids with
    | .error e => .error e
    | .ok message_ids =>
      if 200 < message_ids.length then .error ⟨"Too many messages requested (max 200)"⟩
      else
        match generate_message_recap cfg http sanitize
            ((orderedMsgs store message_ids).map (fun p => p.2))
            ((orderedMsgs store message_ids).map (fun p => p.1)) with
        | none => .error ⟨"Recap generation failed; check server logs"⟩
        | some recap_html =>
          .ok ⟨recap_html,
            (orderedMsgs store message_ids).map
              (fun p => ⟨p.1, "/#narrow/near/" ++ toString p.1, pyReplaceNL (pyTake 300 p.2)⟩)⟩

/-! ## Helper lemmas -/

theorem mk_data (l : List Char) : (String.mk l).data = l := rfl

theorem pyStripL_sublist (l : List Char) : (pyStripL l).Sublist l := by
  unfold pyStripL
  have h1 : (((l.dropWhile pyIsSpace).reverse.dropWhile pyIsSpace).reverse).Sublist
      ((l.dropWhile pyIsSpace).reverse.reverse) := (List.dropWhile_sublist _).reverse
  rw [List.reverse_reverse] at h1
  exact h1.trans (List.dropWhile_sublist _)

theorem pyStrip_length_le (s : String) : (pyStrip s).length ≤ s.length :=
  (pyStripL_sublist s.data).length_le

theorem pyStrip_data_subset (s : String) : (pyStrip s).data ⊆ s.data :=
  (pyStripL_sublist s.data).subset

theorem pyTake_length_le (n : Nat) (s : String) : (pyTake n s).length ≤ n := by
  show (s.data.take n).length ≤ n
  rw [List.length_take]
  exact Nat.min_le_left _ _

theorem pyTake_data_subset (n : Nat) (s : String) : (pyTake n s).data ⊆ s.data :=
  (List.take_sublist n s.data).subset

theorem pyReplaceNL_length (s : String) : (pyReplaceNL s).length = s.length := by
  show (s.data.map _).length = s.data.length
  rw [List.length_map]

theorem pyReplaceNL_no_nl (s : String) : '\n' ∉ (pyReplaceNL s).data := by
  intro h
  rw [show (pyReplaceNL s).data = s.data.map (fun c => if c == '\n' then ' ' else c) from rfl,
    List.mem_map] at h
  obtain ⟨c, _, hc⟩ := h
  rcases eq_or_ne c '\n' with rfl | h'
  · simp at hc
  · simp [h'] at hc

theorem pyFirstLine_no_nl (x : String) : '\n' ∉ (pyFirstLine x).data := by
  intro h
  have := List.mem_takeWhile_imp h
  simp at this

theorem topic_fallback_candidate_length (x : String) :
    (topic_fallback_candidate x).length ≤ 60 :=
  pyTake_length_le 60 _

theorem topic_fallback_candidate_no_nl (x : String) :
    '\n' ∉ (topic_fallback_candidate x).data := by
  intro h
  exact pyFirstLine_no_nl x (pyStrip_data_subset _ (pyTake_data_subset 60 _ h))

theorem candidate_or_title_spec (x : String) (ct : Option String) :
    ((candidate_or_title x ct).length ≤ 60 ∧ '\n' ∉ (candidate_or_title x ct).data)
      ∨ candidate_or_title x ct = currentTitleOr ct := by
  unfold candidate_or_title
  split
  · right; rfl
  · exact Or.inl ⟨topic_fallback_candidate_length x, topic_fallback_candidate_no_nl x⟩

theorem topic_exc_fallback_spec (messages : List String) (ct : Option String) :
    ((topic_exc_fallback messages ct).length ≤ 60 ∧ '\n' ∉ (topic_exc_fallback messages ct).data)
      ∨ topic_exc_fallback messages ct = currentTitleOr ct := by
  unfold topic_exc_fallback
  split
  · right; rfl
  · exact candidate_or_title_spec _ _

theorem topic_success_spec (line0 : String) :
    (pyStrip (pyReplaceNL (pyTake 60 line0))).length ≤ 60 ∧
      '\n' ∉ (pyStrip (pyReplaceNL (pyTake 60 line0))).data := by
  constructor
  · have h1 := pyStrip_length_le (pyReplaceNL (pyTake 60 line0))
    have h2 := pyReplaceNL_length (pyTake 60 line0)
    have h3 := pyTake_length_le 60 line0
    omega
  · intro h
    exact pyReplaceNL_no_nl (pyTake 60 line0) (pyStrip_data_subset _ h)

theorem pyJoin_foldl_acc_within (sep : String) (ps : List String) (acc : String) :
    acc.data <:+: (ps.foldl (fun a q => a ++ sep ++ q) acc).data := by
  induction ps generalizing acc with
  | nil => exact List.infix_rfl
  | cons q ps ih =>
    simp only [List.foldl_cons]
    refine List.IsInfix.trans ?_ (ih (acc ++ sep ++ q))
    rw [String.data_append, String.data_append, List.append_assoc]
    exact (List.prefix_append acc.data (sep.data ++ q.data)).isInfix

theorem pyJoin_foldl_mem_within (sep : String) (ps : List String) (s : String)
    (h : s ∈ ps) (acc : String) :
    s.data <:+: (ps.foldl (fun a q => a ++ sep ++ q) acc).data := by
  induction ps generalizing acc with
  | nil => cases h
  | cons q ps ih =>
    simp only [List.foldl_cons]
    rcases List.mem_cons.mp h with rfl | hs
    · refine List.IsInfix.trans ?_ (pyJoin_foldl_acc_within sep ps (acc ++ sep ++ s))
      rw [String.data_append]
      exact (List.suffix_append _ _).isInfix
    · exact ih hs _

theorem mem_pyJoin_within (sep : String) (parts : List String) (s : String)
    (h : s ∈ parts) : s.data <:+: (pyJoin sep parts).data := by
  match parts, h with
  | p :: ps, h =>
    unfold pyJoin
    rcases List.mem_cons.mp h with rfl | hs
    · exact pyJoin_foldl_acc_within sep ps s
    · exact pyJoin_foldl_mem_within sep ps s hs p

theorem recap_labelled_eq (messages : List String) (ids : List Int)
    (h : messages.length ≤ ids.length) :
    recap_labelled messages ids = (messages.map (pyTake 3000)).take 200 := by
  unfold recap_labelled
  have h2 : (ids.zip messages).map (fun p => pyTake 3000 p.2)
      = (List.map Prod.snd (ids.zip messages)).map (pyTake 3000) := by
    rw [List.map_map]
    rfl
  rw [h2, List.map_snd_zip _ _ h]

theorem resolveTexts_anchor (store : Store) (mid : Option Int) (mids : List Int)
    (a : Int) (ts : List String) (h : resolveTexts store mid mids = .ok (a, ts)) :
    a = anchorOf mid mids := by
  unfold resolveTexts at h
  split at h
  · exact absurd h (by simp)
  · split at h
    · split at h
      · exact absurd h (by simp)
      · simp only [Except.ok.injEq, Prod.mk.injEq] at h
        exact h.1.symm
    · revert h
      split
      · intro h; exact absurd h (by simp)
      · intro h
        simp only [Except.ok.injEq, Prod.mk.injEq] at h
        exact h.1.symm

theorem parse_int_list_error (key s : String) (raw : List String)
    (hmem : s ∈ raw) (hne : s ≠ "") (hint : pyInt s = none) :
    parse_int_list key raw = .error ⟨key ++ " contains non-integer value"⟩ := by
  induction raw with
  | nil => cases hmem
  | cons q qs ih =>
    rcases List.mem_cons.mp hmem with rfl | hs
    · simp [parse_int_list, hne, hint]
    · by_cases hq : q = ""
      · simp only [parse_int_list, if_pos hq]
        exact ih hs
      · rcases hpq : pyInt q with _ | n
        · simp [parse_int_list, hq, hpq]
        · simp [parse_int_list, hq, hpq, ih hs]

theorem parse_int_all_length (raw : List String) (ids : List Int)
    (h : parse_int_all raw = .ok ids) : raw.length = ids.length := by
  induction raw generalizing ids with
  | nil =>
    simp only [parse_int_all, Except.ok.injEq] at h
    subst h; rfl
  | cons q qs ih =>
    revert h
    simp only [parse_int_all]
    split
    · intro h; exact absurd h (by simp)
    · split
      · intro h; exact absurd h (by simp)
      · intro h
        simp only [Except.ok.injEq] at h
        subst h
        simp [ih _ (by assumption)]

/-! ## Concrete instances used in counterexamples and witnesses -/

/-- A configuration with an API key and the supported provider. -/
def cfgKey : LLMConfig := ⟨some "k", "openai"⟩

/-- A configuration with no API key configured. -/
def cfgNoKey : LLMConfig := ⟨none, "openai"⟩

/-- An LLM call that always succeeds with content `s`. -/
def httpOk (s : String) : LLMOracle := fun _ _ => .ok s

/-- An LLM call that always raises. -/
def httpErr : LLMOracle := fun _ _ => .error ()

/-- A fence-wrapped LLM reply. -/
def fenceContent : String := "```\nhello\n```"

/-- A single message of 801 identical characters (one past the 800-char
truncation bound of the topic-suggestion prompt). -/
def msg801 : String := String.mk (List.replicate 801 'a')

/-- A long, multi-line, HTML-bearing current title (65 characters). -/
def ctBad : String := "<b>aa\n" ++ String.mk (List.replicate 55 'a') ++ "</b>"

/-- Store for the C6 witness: two short messages. -/
def store6 : Store := fun i =>
  if i = 1 then some "hi" else if i = 2 then some "yo" else none

/-- Store for the C7 counterexample: two texts that contain "abc" but
never the underscore-joined token "abc_def". -/
def store7 : Store := fun i =>
  if i = 1 then some "abcabcabcabcabcabcabc"
  else if i = 2 then some "abc abc abc abc abc abc" else none

/-- Store for the C7 witness: two texts mentioning the title word. -/
def store7w : Store := fun i =>
  if i = 1 then some "hello there my good friend"
  else if i = 2 then some "hello again my good friend" else none

/-- Store for the C8 witness. -/
def store8 : Store := fun i =>
  if i = 1 then some "aa" else if i = 2 then some "bb" else none

/-- Store for the C9 counterexample. -/
def store9 : Store := fun i =>
  if i = 5 then some "aa" else if i = 6 then some "bb" else none

/-- The claim's reading of gate 3's token extraction, following the
spec's words "alphanumeric tokens of length ≥3 from the lower-cased
current title" literally: runs of alphanumeric characters only.  The
source instead uses `\w{3,}`, which also matches the underscore (see
`titleTokens`); the two disagree on titles containing underscores. -/
def alnumTitleTokens (title : String) : List (List Char) :=
  findTokensMin3 Char.isAlphanum (pyLower title)

/-! ## Claims -/

/-- C1: the spec says `generate_message_recap` strips a leading/trailing
code fence from the LLM content, sanitizes the fence-stripped text and
returns exactly that inside the `ai-recap` container, so a fence never
appears in the returned HTML.  The code instead sanitizes the original
content (`clean = bleach.clean(content)` at line 90 runs before
`strip_code_fence`), discards the fence-stripped string computed at
line 98, and wraps `clean`: the fence survives into the returned HTML.
With the sanitizer instantiated to the identity (which is what
`bleach.clean` computes on this tag-free content), the returned HTML is
the wrapped, UNstripped content and still contains "```", even though
`strip_code_fence` itself would have produced "hello". -/
theorem c1_fence_survives_in_output :
    generate_message_recap cfgKey (httpOk fenceContent) id ["m"] [1]
        = some ("<div class=\x27ai-recap\x27>" ++ fenceContent ++ "</div>") ∧
    isInfixOfL "```".data ("<div class=\x27ai-recap\x27>" ++ fenceContent ++ "</div>").data = true ∧
    strip_code_fence fenceContent = some "hello" := by decide

/-- C2: the spec says each message is truncated to 800 characters and
only the last 30 messages are kept before inclusion in the
topic-suggestion user prompt.  But `user_parts` at `ai.py` line 134
splices the RAW `messages` list (untruncated and uncapped) into the
prompt alongside the truncated `labelled` list, so the prompt contains
the full 801-character message as a contiguous substring. -/
theorem c2_untruncated_message_in_prompt :
    800 < msg801.length ∧
    msg801.data <:+: (topic_prompt_user [msg801] (some "t")).data := by
  constructor
  · show 800 < (List.replicate 801 'a').length
    rw [List.length_replicate]
    omega
  · unfold topic_prompt_user
    apply mem_pyJoin_within
    unfold topic_user_parts
    exact List.mem_append_left _ (List.mem_append_left _ (List.mem_append_left _
      (List.mem_append_right _ (List.mem_cons_self _ _))))

/-- C3 counterexample: with no API key, messages `["\n"]` (whose
heuristic candidate is empty) and a 65-character multi-line HTML
current title, `suggest_topic_title` returns the title unchanged:
longer than 60 characters, containing a newline and HTML.  This
falsifies the claim that every path returns at most 60 characters,
newline-free and HTML-free. -/
theorem c3_counterexample :
    suggest_topic_title cfgNoKey httpErr ["\n"] (some ctBad) = ctBad ∧
    60 < ctBad.length ∧ '\n' ∈ ctBad.data ∧ '<' ∈ ctBad.data := by decide

/-- C3 (amended): every value returned by `suggest_topic_title` is
either at most 60 characters long and newline-free, or is exactly the
current title (`current_title or ""`) passed through unchanged by one
of the fallback paths.  (HTML is never removed on any path, so
HTML-freeness holds on no path beyond what the LLM/base text provides.)
Quantified over every configuration, LLM outcome and input. -/
theorem c3_amended (cfg : LLMConfig) (http : LLMOracle)
    (messages : List String) (ct : Option String) :
    ((suggest_topic_title cfg http messages ct).length ≤ 60 ∧
      '\n' ∉ (suggest_topic_title cfg http messages ct).data)
    ∨ suggest_topic_title cfg http messages ct = currentTitleOr ct := by
  unfold suggest_topic_title
  split
  · exact Or.inl ⟨by decide, by decide⟩
  · split
    · exact candidate_or_title_spec _ _
    · split
      · exact topic_exc_fallback_spec _ _
      · split
        · exact topic_exc_fallback_spec _ _
        · split
          · exact topic_exc_fallback_spec _ _
          · exact Or.inl (topic_success_spec _)

/-- C4: the spec says recap post-processing is total and the function
never raises.  But on LLM content "```" (a bare fence with no newline),
`strip_code_fence` evaluates `s.split("\n", 1)[1]` on a string with no
newline and raises `IndexError`; the call at `ai.py` line 98 sits
outside the `try` block, so `generate_message_recap` raises (`none` in
the model) instead of returning HTML. -/
theorem c4_index_error_on_bare_fence :
    strip_code_fence "```" = none ∧
    generate_message_recap cfgKey (httpOk "```") id ["m"] [1] = none := by decide

/-- C5 counterexample: the id list does influence the output.
`zip(message_ids, messages)` truncates to the shorter list, so with one
message and an empty id list the message is dropped entirely: the
no-API-key fallbacks for id lists `[1]` and `[]` differ. -/
theorem c5_counterexample :
    generate_message_recap cfgNoKey httpErr id ["x"] [1]
      ≠ generate_message_recap cfgNoKey httpErr id ["x"] [] := by decide

/-- C5 (amended): the VALUES of the message ids never influence the
output; only the id-list length can, by `zip` truncation.  Whenever both
id lists are at least as long as the message list (in particular for
the parallel lists the caller passes), the output is identical. -/
theorem c5_amended (cfg : LLMConfig) (http : LLMOracle) (sanitize : String → String)
    (messages : List String) (ids₁ ids₂ : List Int)
    (h₁ : messages.length ≤ ids₁.length) (h₂ : messages.length ≤ ids₂.length) :
    generate_message_recap cfg http sanitize messages ids₁
      = generate_message_recap cfg http sanitize messages ids₂ := by
  unfold generate_message_recap
  rw [recap_labelled_eq messages ids₁ h₁, recap_labelled_eq messages ids₂ h₂]

/-- C5 witness: the amended theorem at concrete inputs with two
different id lists of sufficient length. -/
theorem c5_amended_witness :
    (["x"] : List String).length ≤ ([1] : List Int).length ∧
    (["x"] : List String).length ≤ ([2] : List Int).length ∧
    generate_message_recap cfgNoKey httpErr id ["x"] [1]
      = generate_message_recap cfgNoKey httpErr id ["x"] [2] :=
  ⟨by decide, by decide,
    c5_amended cfgNoKey httpErr id ["x"] [1] [2] (by decide) (by decide)⟩

/-- C6: for every topic-suggestion request whose resolved text list has
fewer than 2 elements, or whose average text length is below 20
characters (`sum < 20 * count`, the exact form of the float comparison),
the handler returns an empty `suggested_title` with the resolved
`anchor_id`.  The conclusion holds for EVERY configuration and LLM
oracle with an oracle-free right-hand side, so no LLM call influences
the response: the gate short-circuits before the call site. -/
theorem c6_gate_short_or_small (store : Store) (cfg : LLMConfig) (http : LLMOracle)
    (ct : String) (mid : Option Int) (mids : List Int) (anchor : Int) (texts : List String)
    (hres : resolveTexts store mid mids = .ok (anchor, texts))
    (hgate : texts.length < 2 ∨ sumLens texts < 20 * texts.length) :
    suggest_topic_title_core store cfg http ct mid mids = .ok ⟨"", anchor⟩ := by
  unfold suggest_topic_title_core
  rw [hres]
  dsimp only
  rcases hgate with h | h
  · rw [if_pos h]
  · by_cases h2 : texts.length < 2
    · rw [if_pos h2]
    · rw [if_neg h2, if_pos h]

/-- C6 witness: two 2-character texts (count 2, average 2 < 20) with an
LLM oracle that would return "SOME": the gate still yields the empty
title and anchor 2. -/
theorem c6_gate_witness :
    resolveTexts store6 none [1, 2] = .ok (2, ["hi", "yo"]) ∧
    sumLens ["hi", "yo"] < 20 * (["hi", "yo"] : List String).length ∧
    suggest_topic_title_core store6 cfgKey (httpOk "SOME") "t" none [1, 2] = .ok ⟨"", 2⟩ :=
  ⟨by decide, by decide,
    c6_gate_short_or_small store6 cfgKey (httpOk "SOME") "t" none [1, 2] 2 ["hi", "yo"]
      (by decide) (Or.inr (by decide))⟩

/-- C7 counterexample: the claim reads gate 3's tokens as "alphanumeric
tokens"; the source uses `\w{3,}`, which also matches underscores.  For
title "abc_def" the source extracts the single token "abc_def" while the
claim's reading extracts "abc" and "def".  Both resolved texts contain
"abc" (fraction 1 > 0.6), so the claim demands an empty suggestion with
no LLM call; the code finds no text containing "abc_def", calls the LLM
and returns its nonempty answer. -/
theorem c7_counterexample :
    alnumTitleTokens "abc_def" ≠ [] ∧
    3 * 2 < 5 * titleMatchCount (alnumTitleTokens "abc_def")
        ["abcabcabcabcabcabcabc", "abc abc abc abc abc abc"] ∧
    resolveTexts store7 none [1, 2]
        = .ok (2, ["abcabcabcabcabcabcabc", "abc abc abc abc abc abc"]) ∧
    suggest_topic_title_core store7 cfgKey (httpOk "Something") "abc_def" none [1, 2]
        = .ok ⟨"Something", 2⟩ := by decide

/-- C7 (amended): with the tokens taken as the source takes them —
maximal runs of WORD characters (alphanumeric or underscore) of length
at least 3 from the lower-cased title — the gate behaves as claimed:
when tokens exist and the fraction of resolved texts containing one
exceeds 0.6 (`3 * count < 5 * matches`, the exact form of the float
comparison), the handler returns the empty title and the anchor for
every configuration and LLM oracle (no LLM call). -/
theorem c7_amended (store : Store) (cfg : LLMConfig) (http : LLMOracle)
    (ct : String) (mid : Option Int) (mids : List Int) (anchor : Int) (texts : List String)
    (hres : resolveTexts store mid mids = .ok (anchor, texts))
    (h1 : 2 ≤ texts.length) (h2 : 20 * texts.length ≤ sumLens texts)
    (h3 : titleTokens ct ≠ [])
    (h4 : 3 * texts.length < 5 * titleMatchCount (titleTokens ct) texts) :
    suggest_topic_title_core store cfg http ct mid mids = .ok ⟨"", anchor⟩ := by
  unfold suggest_topic_title_core
  rw [hres]
  dsimp only
  rw [if_neg (by omega), if_neg (by omega), if_pos ⟨h3, h4⟩]

/-- C7 witness: title "hello world", two texts of 26 characters both
containing "hello" (fraction 1 > 0.6): empty suggestion, anchor 2,
with an LLM oracle that would have answered "X". -/
theorem c7_amended_witness :
    resolveTexts store7w none [1, 2]
        = .ok (2, ["hello there my good friend", "hello again my good friend"]) ∧
    suggest_topic_title_core store7w cfgKey (httpOk "X") "hello world" none [1, 2]
        = .ok ⟨"", 2⟩ :=
  ⟨by decide,
    c7_amended store7w cfgKey (httpOk "X") "hello world" none [1, 2] 2
      ["hello there my good friend", "hello again my good friend"]
      (by decide) (by decide) (by decide) (by decide) (by decide)⟩

/-- C8: on every non-error path of the topic-suggestion logic the
returned `anchor_id` equals `anchorOf mid mids`: the explicit
`message_id` when given, else the last entry of `message_ids`.  This
holds for every store, configuration and LLM oracle, so it is
independent of gate outcomes and of the LLM call. -/
theorem c8_anchor (store : Store) (cfg : LLMConfig) (http : LLMOracle)
    (ct : String) (mid : Option Int) (mids : List Int) (r : TopicResponse)
    (h : suggest_topic_title_core store cfg http ct mid mids = .ok r) :
    r.anchor_id = anchorOf mid mids := by
  unfold suggest_topic_title_core at h
  cases hres : resolveTexts store mid mids with
  | error e => rw [hres] at h; cases h
  | ok p =>
    obtain ⟨a, ts⟩ := p
    rw [hres] at h
    dsimp only at h
    have ha := resolveTexts_anchor store mid mids a ts hres
    split at h
    · simp only [Except.ok.injEq] at h
      subst h
      exact ha
    · split at h
      · simp only [Except.ok.injEq] at h
        subst h
        exact ha
      · split at h
        · simp only [Except.ok.injEq] at h
          subst h
          exact ha
        · simp only [Except.ok.injEq] at h
          subst h
          exact ha

/-- C8 witness: explicit `message_id = 7` with `message_ids = [1, 2]`;
the gated (empty-title) response still carries anchor 7. -/
theorem c8_anchor_witness :
    suggest_topic_title_core store8 cfgKey (httpOk "Z") "t" (some 7) [1, 2] = .ok ⟨"", 7⟩ ∧
    (⟨"", 7⟩ : TopicResponse).anchor_id = anchorOf (some 7) [1, 2] :=
  ⟨by decide,
    c8_anchor store8 cfgKey (httpOk "Z") "t" (some 7) [1, 2] ⟨"", 7⟩ (by decide)⟩

/-- C9 counterexample: the claim says ANY non-integer value supplied in
either field — "including the empty string" — is a hard validation
error.  But `_parse_int` maps an empty `message_id` to `None` and
`_parse_int_list_from_post` silently skips empty items: with
`message_id = ""` and `message_ids = ["5", "", "6"]` the handler
proceeds and succeeds (empty-string values raised no error). -/
theorem c9_counterexample :
    suggest_topic_title_backend store9 cfgKey (httpOk "X") ⟨"t", some "", ["5", "", "6"]⟩
      = .ok ⟨"", 6⟩ := by decide

/-- C9 (amended): at least one of the two id fields must yield a parsed
value or the required-field error is raised; any NON-EMPTY non-integer
value in either field is a hard validation error raised for every
store, configuration and LLM oracle (hence before any message lookup or
LLM interaction); empty strings are not errors — an empty `message_id`
is treated as absent and empty entries of `message_ids` are skipped. -/
theorem c9_amended :
    (∀ (store : Store) (cfg : LLMConfig) (http : LLMOracle) (req : TopicRequest) (s : String),
      req.message_id = some s → s ≠ "" → pyInt s = none →
      suggest_topic_title_backend store cfg http req
        = .error ⟨"message_id is not an integer"⟩) ∧
    (∀ (store : Store) (cfg : LLMConfig) (http : LLMOracle) (req : TopicRequest)
        (mid : Option Int) (s : String),
      parse_int req.message_id "message_id" = .ok mid →
      s ∈ req.message_ids → s ≠ "" → pyInt s = none →
      suggest_topic_title_backend store cfg http req
        = .error ⟨"message_ids contains non-integer value"⟩) ∧
    (∀ (store : Store) (cfg : LLMConfig) (http : LLMOracle) (req : TopicRequest),
      parse_int req.message_id "message_id" = .ok none →
      parse_int_list "message_ids" req.message_ids = .ok [] →
      suggest_topic_title_backend store cfg http req
        = .error ⟨"message_id or message_ids is required"⟩) := by
  refine ⟨?_, ?_, ?_⟩
  · intro store cfg http req s hmi hne hint
    have hps : parse_int req.message_id "message_id"
        = .error ⟨"message_id is not an integer"⟩ := by
      rw [hmi]
      simp [parse_int, hne, hint]
    unfold suggest_topic_title_backend
    rw [hps]
  · intro store cfg http req mid s hpm hmem hne hint
    unfold suggest_topic_title_backend
    rw [hpm, parse_int_list_error "message_ids" s req.message_ids hmem hne hint]
    rfl
  · intro store cfg http req hpm hpl
    unfold suggest_topic_title_backend
    rw [hpm, hpl]
    unfold suggest_topic_title_core resolveTexts
    rfl

/-- C9 witness: the three amended conjuncts at concrete requests — a
non-integer `message_id`, a non-integer entry in `message_ids`, and a
request whose only supplied value is an empty-string id entry. -/
theorem c9_amended_witness :
    suggest_topic_title_backend store8 cfgKey (httpOk "X") ⟨"t", some "abc", ["2"]⟩
      = .error ⟨"message_id is not an integer"⟩ ∧
    suggest_topic_title_backend store8 cfgKey (httpOk "X") ⟨"t", none, ["2", "y"]⟩
      = .error ⟨"message_ids contains non-integer value"⟩ ∧
    suggest_topic_title_backend store8 cfgKey (httpOk "X") ⟨"t", none, [""]⟩
      = .error ⟨"message_id or message_ids is required"⟩ :=
  ⟨c9_amended.1 store8 cfgKey (httpOk "X") ⟨"t", some "abc", ["2"]⟩ "abc"
      rfl (by decide) (by decide),
    c9_amended.2.1 store8 cfgKey (httpOk "X") ⟨"t", none, ["2", "y"]⟩ none "y"
      (by decide) (by decide) (by decide) (by decide),
    c9_amended.2.2 store8 cfgKey (httpOk "X") ⟨"t", none, [""]⟩
      (by decide) (by decide)⟩

/-- C10: exceeding the id-count bound is a hard validation error raised
before any message fetch or LLM call, for both endpoints: more than 200
parsed ids for the recap endpoint and more than 50 for the
topic-suggestion endpoint yield the respective count-limit error for
EVERY store, configuration, sanitizer and LLM oracle (so neither the
store nor the LLM is consulted), with no truncation. -/
theorem c10_count_bounds :
    (∀ (store : Store) (cfg : LLMConfig) (http : LLMOracle) (sanitize : String → String)
        (raw_ids : List String) (ids : List Int),
      parse_int_all raw_ids = .ok ids → 200 < ids.length →
      message_recap store cfg http sanitize raw_ids
        = .error ⟨"Too many messages requested (max 200)"⟩) ∧
    (∀ (store : Store) (cfg : LLMConfig) (http : LLMOracle) (ct : String)
        (mid : Option Int) (mids : List Int),
      50 < mids.length →
      suggest_topic_title_core store cfg http ct mid mids
        = .error ⟨"Too many messages requested (max 50)"⟩) := by
  constructor
  · intro store cfg http sanitize raw_ids ids hparse hlen
    have hraw : raw_ids.length = ids.length := parse_int_all_length raw_ids ids hparse
    have hne : raw_ids.isEmpty = false := by
      cases raw_ids with
      | nil => simp at hraw; omega
      | cons q qs => rfl
    unfold message_recap
    rw [hne, hparse]
    simp only [Bool.false_eq_true, if_false]
    rw [if_pos hlen]
  · intro store cfg http ct mid mids hlen
    have hne : mids.isEmpty = false := by
      cases mids with
      | nil => simp at hlen
      | cons q qs => rfl
    unfold suggest_topic_title_core resolveTexts
    rw [hne]
    simp only [Bool.and_false, Bool.false_eq_true, if_false]
    rw [if_pos trivial, if_pos hlen]

set_option maxRecDepth 8192 in
/-- C10 witness: 201 parsed recap ids and 51 topic ids yield the two
count-limit errors. -/
theorem c10_count_bounds_witness :
    message_recap (fun _ => none) cfgKey (httpOk "Y") id (List.replicate 201 "1")
      = .error ⟨"Too many messages requested (max 200)"⟩ ∧
    suggest_topic_title_core (fun _ => none) cfgKey (httpOk "Y") "t" none (List.replicate 51 3)
      = .error ⟨"Too many messages requested (max 50)"⟩ :=
  ⟨c10_count_bounds.1 (fun _ => none) cfgKey (httpOk "Y") id (List.replicate 201 "1")
      (List.replicate 201 1) (by decide) (by decide),
    c10_count_bounds.2 (fun _ => none) cfgKey (httpOk "Y") "t" none (List.replicate 51 3)
      (by decide)⟩
